import Mathlib

/-!
Verification of the two chart-generation scripts of the repository
(`generate_graph.py` and `generate_log_linegraph.py`).  Each script reads a
CSV into a dataframe, derives a `throughput` column, coerces the `verified`
column to boolean with `astype(bool)`, partitions the rows by the boolean
value, plots one series per partition and saves the figure.  The dataframe
is embedded as a header plus a list of rows of cell values; the pandas
operations used by the scripts are embedded one by one, and each script
becomes a function from an abstract CSV input to a run result.
-/

/-- Cell value of the in-memory table: a rational number (covering the ints
and floats pandas produces from a CSV), a boolean, a string, the float NaN,
or a signed infinity (which arises from dividing a nonzero number by zero,
as numpy does instead of raising). -/
inductive Value where
  | num (q : ℚ)
  | bool (b : Bool)
  | str (s : String)
  | nan
  | inf (neg : Bool)
deriving DecidableEq, Repr

/-- Python exception kinds the scripts can encounter in the embedded part:
`FileNotFoundError` from `pd.read_csv`, `ParserError` from a malformed CSV,
`KeyError` from selecting an absent column, `TypeError` from arithmetic on
non-numeric cells. -/
inductive PyError where
  | fileNotFound (path : String)
  | parserError (msg : String)
  | keyError (col : String)
  | typeError (msg : String)
deriving DecidableEq, Repr

/-- The pandas dataframe, embedded as an ordered header of column names and
a list of rows, each row listing its cells in header order. -/
structure RawTable where
  header : List String
  rows : List (List Value)
deriving DecidableEq, Repr

/-- Abstract input bound to a file path: the file is missing
(`pd.read_csv` raises `FileNotFoundError`), unparseable
(`pd.read_csv` raises a parser error), or holds a table. -/
inductive CsvInput where
  | missingFile
  | malformed (msg : String)
  | content (t : RawTable)
deriving DecidableEq, Repr

/-- Embeds `pd.read_csv(file_path)` (line 14 of `generate_graph.py`, line 7
of `generate_log_linegraph.py`). -/
def read_csv (path : String) (inp : CsvInput) : Except PyError RawTable :=
  match inp with
  | .missingFile => .error (.fileNotFound path)
  | .malformed m => .error (.parserError m)
  | .content t => .ok t

/-- Column selection `df[c]`: `KeyError` when the header lacks `c`,
otherwise the list of cells of that column (NaN filling a short row, as
pandas pads missing trailing cells). -/
def RawTable.getCol (t : RawTable) (c : String) : Except PyError (List Value) :=
  match t.header.findIdx? (fun h => h == c) with
  | none => .error (.keyError c)
  | some i => .ok (t.rows.map (fun r => r.getD i .nan))

/-- Column assignment `df[c] = vs`: overwrite the column in place when it
exists, otherwise append it as the rightmost column. -/
def RawTable.setCol (t : RawTable) (c : String) (vs : List Value) : RawTable :=
  match t.header.findIdx? (fun h => h == c) with
  | none => ⟨t.header ++ [c], t.rows.zipWith (fun r v => r ++ [v]) vs⟩
  | some i => ⟨t.header, t.rows.zipWith (fun r v => r.set i v) vs⟩

/-- Value of `(a * 1000) / b` for numeric operands, with numpy division
semantics at zero: `0/0` is NaN and `x/0` for nonzero `x` is a signed
infinity, no exception raised. -/
def thrVal (a b : ℚ) : Value :=
  if b = 0 then (if a = 0 then .nan else .inf (decide (a < 0)))
  else .num (a * 1000 / b)

/-- Elementwise value of `(t * 1000) / e`, the expression on line 19 of
`generate_graph.py` and line 14 of `generate_log_linegraph.py`.  Booleans
count as 0/1 as in Python arithmetic; a string operand makes the combined
expression raise `TypeError` (for a string dividend the error surfaces at
the division, after `* 1000` repeated the string; the net effect on the
run is the same error); NaN propagates; infinities divide as in numpy. -/
def throughputVal (t e : Value) : Except PyError Value :=
  match t, e with
  | .str _, _ => .error (.typeError "unsupported operand type for /")
  | _, .str _ => .error (.typeError "unsupported operand type for /")
  | .nan, _ => .ok .nan
  | _, .nan => .ok .nan
  | .inf _, .inf _ => .ok .nan
  | .inf s, .num b => .ok (if b < 0 then .inf (!s) else .inf s)
  | .inf s, .bool _ => .ok (.inf s)
  | .num _, .inf _ => .ok (.num 0)
  | .bool _, .inf _ => .ok (.num 0)
  | .num a, .num b => .ok (thrVal a b)
  | .num a, .bool b => .ok (thrVal a (if b then 1 else 0))
  | .bool a, .num b => .ok (thrVal (if a then 1 else 0) b)
  | .bool a, .bool b => .ok (thrVal (if a then 1 else 0) (if b then 1 else 0))

/-- Coercion of one cell by `.astype(bool)`: Python truthiness.  Zero and
`False` give `False`; every nonzero number, `True`, and every non-empty
string (including the string "False") give `True`; the empty string gives
`False`; float NaN and infinities are truthy. -/
def Value.astypeBool : Value → Bool
  | .num q => decide (q ≠ 0)
  | .bool b => b
  | .str s => decide (s ≠ "")
  | .nan => true
  | .inf _ => true

/-- Python `==` between two cell values, as used by the boolean masks
`df[...] == True` and `df[...] == False`: numbers and booleans compare by
numeric value, strings by content, NaN equals nothing (itself included),
values of unrelated kinds are unequal. -/
def Value.pyEq : Value → Value → Bool
  | .num a, .num b => a == b
  | .num a, .bool b => a == (if b then (1 : ℚ) else 0)
  | .bool a, .num b => (if a then (1 : ℚ) else 0) == b
  | .bool a, .bool b => a == b
  | .str a, .str b => a == b
  | .inf a, .inf b => a == b
  | _, _ => false

/-- Row filtering `df[df[c] == v]` for a boolean literal `v`: keep, in
order, the rows whose cell in column `c` compares `==` to `v`. -/
def RawTable.filterByBool (t : RawTable) (c : String) (b : Bool) :
    Except PyError RawTable := do
  let col ← t.getCol c
  .ok ⟨t.header, ((t.rows.zip col).filter (fun rv => rv.2.pyEq (.bool b))).map Prod.fst⟩

/-- Line 19 of `generate_graph.py` and line 14 of `generate_log_linegraph.py`:
`df[throughput] = (df[num_txns] * 1000) / df[elapsed_ms]`. -/
def calcThroughput (df : RawTable) : Except PyError RawTable := do
  let nt ← df.getCol "num_txns"
  let el ← df.getCol "elapsed_ms"
  let thr ← (nt.zip el).mapM (fun p => throughputVal p.1 p.2)
  .ok (df.setCol "throughput" thr)

/-- Line 22 of `generate_graph.py` and line 17 of `generate_log_linegraph.py`:
`df[verified] = df[verified].astype(bool)`. -/
def coerceVerified (df : RawTable) : Except PyError RawTable := do
  let ver ← df.getCol "verified"
  .ok (df.setCol "verified" (ver.map (fun v => Value.bool v.astypeBool)))

/-- Lines 28 and 29 of `generate_graph.py` (23 and 24 of
`generate_log_linegraph.py`): `df_true = df[df[verified] == True]` and
`df_false = df[df[verified] == False]`. -/
def partitionVerified (df : RawTable) : Except PyError (RawTable × RawTable) := do
  let t ← df.filterByBool "verified" true
  let f ← df.filterByBool "verified" false
  .ok (t, f)

/-- One plotted series: the X data, the Y data, and the static style
arguments passed to `plt.plot`. -/
structure Series where
  xs : List Value
  ys : List Value
  seriesLabel : String
  marker : String
  linestyle : String
deriving DecidableEq, Repr

/-- The figure state built by each script before `savefig`: the two series
in plotting order plus the static axis/legend configuration. -/
structure Chart where
  series1 : Series
  series2 : Series
  xlabel : String
  ylabel : String
  chartTitle : String
  legendTitle : String
  yscale : String
  gridBoth : Bool
deriving DecidableEq, Repr

/-- Lines 33 to 43 of `generate_graph.py`: plot the true partition then the
false partition (both `marker=o`, default solid linestyle), linear Y axis,
its labels, title, legend and grid. -/
def mkChartLinear (dfT dfF : RawTable) : Except PyError Chart := do
  let xt ← dfT.getCol "num_keys"
  let yt ← dfT.getCol "throughput"
  let xf ← dfF.getCol "num_keys"
  let yf ← dfF.getCol "throughput"
  .ok { series1 := ⟨xt, yt, "Verified = True", "o", "-"⟩
        series2 := ⟨xf, yf, "Verified = False", "o", "-"⟩
        xlabel := "Number of Keys (num_keys)"
        ylabel := "Throughput (transactions/second)"
        chartTitle := "Throughput vs. Number of Keys by Verification Status"
        legendTitle := "Verified"
        yscale := "linear"
        gridBoth := false }

/-- Lines 27 to 42 of `generate_log_linegraph.py`: same series data, but the
false partition uses `marker=s` and dashed linestyle, the Y axis is
logarithmic, the label texts differ and the grid covers minor ticks too. -/
def mkChartLog (dfT dfF : RawTable) : Except PyError Chart := do
  let xt ← dfT.getCol "num_keys"
  let yt ← dfT.getCol "throughput"
  let xf ← dfF.getCol "num_keys"
  let yf ← dfF.getCol "throughput"
  .ok { series1 := ⟨xt, yt, "Verified = True", "o", "-"⟩
        series2 := ⟨xf, yf, "Verified = False", "s", "--"⟩
        xlabel := "Number of Keys"
        ylabel := "Throughput (txns/sec) - Log Scale"
        chartTitle := "Throughput vs. Number of Keys"
        legendTitle := "Verified"
        yscale := "log"
        gridBoth := true }

/-- Outcome of one run of a script: the figure was saved under a file name
and a confirmation printed; or an exception was caught and printed as a
message (no file written); or an exception escaped uncaught, aborting the
interpreter with a traceback (no file written). -/
inductive RunResult where
  | success (file : String) (chart : Chart) (msg : String)
  | handled (msg : String)
  | uncaught (e : PyError)
deriving DecidableEq, Repr

/-- Message printed by both scripts when `FileNotFoundError` is caught
(line 52 of `generate_graph.py`, line 9 of `generate_log_linegraph.py`);
the quote characters around the path are elided. -/
def fnfMsg (path : String) : String :=
  "Error: The file " ++ path ++ " was not found."

/-- Text of a caught generic exception, standing in for Python `str(e)`. -/
def errMsg : PyError → String
  | .fileNotFound p => "FileNotFoundError: " ++ p
  | .parserError m => "ParserError: " ++ m
  | .keyError c => "KeyError: " ++ c
  | .typeError m => "TypeError: " ++ m

/-- Body of the `try` block of `generate_graph.py` (lines 14 to 49): load,
derive throughput, coerce `verified`, partition, build the figure. -/
def linearBody (path : String) (inp : CsvInput) : Except PyError Chart := do
  let df ← read_csv path inp
  let df1 ← calcThroughput df
  let df2 ← coerceVerified df1
  let pr ← partitionVerified df2
  mkChartLinear pr.1 pr.2

/-- The function `generate_throughput_linegraph` of `generate_graph.py`:
the whole pipeline runs inside one `try`; `FileNotFoundError` is caught
and printed specially (line 51), every other exception is caught and
printed generically (line 53), and only a fully successful body saves
`linegraph.png` and prints the confirmation (lines 47 to 49). -/
def generate_throughput_linegraph (path : String) (inp : CsvInput) : RunResult :=
  match linearBody path inp with
  | .ok c => .success "linegraph.png" c "Line graph saved to linegraph.png"
  | .error (.fileNotFound p) => .handled (fnfMsg p)
  | .error e => .handled ("An error occurred: " ++ errMsg e)

/-- Stages of `generate_log_linegraph.py` after the load (lines 14 to 30):
identical pipeline steps, log-style figure. -/
def logBodyAfterLoad (df : RawTable) : Except PyError Chart := do
  let df1 ← calcThroughput df
  let df2 ← coerceVerified df1
  let pr ← partitionVerified df2
  mkChartLog pr.1 pr.2

/-- The function `generate_log_linegraph` of `generate_log_linegraph.py`:
only `pd.read_csv` sits in a `try`, and that `try` catches only
`FileNotFoundError` (lines 6 to 10); any other exception — from the load or
from any later stage — propagates uncaught; a fully successful run saves
`linegraph_log.png` and prints the confirmation (lines 44 to 46). -/
def generate_log_linegraph (path : String) (inp : CsvInput) : RunResult :=
  match read_csv path inp with
  | .error (.fileNotFound p) => .handled (fnfMsg p)
  | .error e => .uncaught e
  | .ok df =>
    match logBodyAfterLoad df with
    | .ok c => .success "linegraph_log.png" c "Graph saved to linegraph_log.png"
    | .error e => .uncaught e

/-- File name written by a run, when one is written at all. -/
def RunResult.outputOf : RunResult → Option String
  | .success f _ _ => some f
  | _ => none

/-- Whether the run ended by catching an exception and printing a message. -/
def RunResult.isCaught : RunResult → Bool
  | .handled _ => true
  | _ => false

/-- Whether the run ended with an uncaught exception. -/
def RunResult.isUncaught : RunResult → Bool
  | .uncaught _ => true
  | _ => false

/-- Whether an exception is of the `FileNotFoundError` class. -/
def PyError.isFnf : PyError → Bool
  | .fileNotFound _ => true
  | _ => false

/-- One measurement row as the spec describes it (section 3): numeric
`num_txns`, `elapsed_ms` and `num_keys`, and a raw `verified` cell of any
kind.  This is the well-formed shape of a loaded table; claims about the
data pipeline quantify over lists of such records. -/
structure Record where
  num_txns : ℚ
  elapsed_ms : ℚ
  num_keys : ℚ
  verified : Value
deriving DecidableEq, Repr

/-- Cells of one record in CSV column order. -/
def Record.toRow (r : Record) : List Value :=
  [.num r.num_txns, .num r.elapsed_ms, .num r.num_keys, r.verified]

/-- Header of the measurements CSV. -/
def hdr4 : List String := ["num_txns", "elapsed_ms", "num_keys", "verified"]

/-- Header after the `throughput` column has been appended. -/
def hdr5 : List String := hdr4 ++ ["throughput"]

/-- The table a list of records loads into. -/
def tableOf (rs : List Record) : RawTable := ⟨hdr4, rs.map Record.toRow⟩

/-- Throughput cell of one record, numpy division semantics included. -/
def thrValOf (r : Record) : Value := thrVal r.num_txns r.elapsed_ms

/-- Row of a record after both metric steps: `verified` coerced in place,
`throughput` appended on the right. -/
def augRow (r : Record) : List Value :=
  [.num r.num_txns, .num r.elapsed_ms, .num r.num_keys,
   .bool r.verified.astypeBool, thrValOf r]

/-- Table state after line 19 (throughput appended, `verified` still raw). -/
def thrTable (rs : List Record) : RawTable :=
  ⟨hdr5, rs.map (fun r => r.toRow ++ [thrValOf r])⟩

/-- Table state after line 22 (the partitioner input). -/
def augTable (rs : List Record) : RawTable := ⟨hdr5, rs.map augRow⟩

/-- Records whose coerced `verified` is true, in table order. -/
def truePart (rs : List Record) : List Record :=
  rs.filter (fun r => r.verified.astypeBool)

/-- Records whose coerced `verified` is false, in table order. -/
def falsePart (rs : List Record) : List Record :=
  rs.filter (fun r => !r.verified.astypeBool)

/-- The chart the linear script builds from a list of records. -/
def chartLinearOf (rs : List Record) : Chart :=
  { series1 := ⟨(truePart rs).map (fun r => .num r.num_keys),
                (truePart rs).map thrValOf, "Verified = True", "o", "-"⟩
    series2 := ⟨(falsePart rs).map (fun r => .num r.num_keys),
                (falsePart rs).map thrValOf, "Verified = False", "o", "-"⟩
    xlabel := "Number of Keys (num_keys)"
    ylabel := "Throughput (transactions/second)"
    chartTitle := "Throughput vs. Number of Keys by Verification Status"
    legendTitle := "Verified"
    yscale := "linear"
    gridBoth := false }

/-- The chart the log script builds from a list of records. -/
def chartLogOf (rs : List Record) : Chart :=
  { series1 := ⟨(truePart rs).map (fun r => .num r.num_keys),
                (truePart rs).map thrValOf, "Verified = True", "o", "-"⟩
    series2 := ⟨(falsePart rs).map (fun r => .num r.num_keys),
                (falsePart rs).map thrValOf, "Verified = False", "s", "--"⟩
    xlabel := "Number of Keys"
    ylabel := "Throughput (txns/sec) - Log Scale"
    chartTitle := "Throughput vs. Number of Keys"
    legendTitle := "Verified"
    yscale := "log"
    gridBoth := true }

lemma zipWith_map_same {α β γ δ : Type} (f : β → γ → δ) (g : α → β) (h : α → γ)
    (l : List α) : List.zipWith f (l.map g) (l.map h) = l.map (fun a => f (g a) (h a)) := by
  induction l with
  | nil => rfl
  | cons a t ih => simp [ih]

lemma filter_map_comm {α β : Type} (p : β → Bool) (f : α → β) (l : List α) :
    (l.map f).filter p = (l.filter (fun a => p (f a))).map f := by
  induction l with
  | nil => rfl
  | cons a t ih =>
    by_cases h : p (f a) <;> simp [List.filter, h, ih]

lemma ok_bind {α β : Type} (x : α) (f : α → Except PyError β) :
    (Except.ok x >>= f) = f x := rfl

lemma error_bind {α β : Type} (e : PyError) (f : α → Except PyError β) :
    ((Except.error e : Except PyError α) >>= f) = .error e := rfl

lemma mapM_ok_map {α β : Type} (g : α → β) (f : β → Except PyError Value)
    (k : α → Value) (l : List α) (h : ∀ a, f (g a) = .ok (k a)) :
    (l.map g).mapM f = .ok (l.map k) := by
  induction l with
  | nil => rfl
  | cons a t ih => rw [List.map_cons, List.mapM_cons, h a, ih]; rfl

lemma length_filter_not {α : Type} (p : α → Bool) (l : List α) :
    (l.filter p).length + (l.filter (fun a => !p a)).length = l.length := by
  induction l with
  | nil => rfl
  | cons a t ih =>
    by_cases h : p a <;> simp [List.filter, h] <;> omega

lemma getCol_tableOf_numTxns (rs : List Record) :
    (tableOf rs).getCol "num_txns" = .ok (rs.map (fun r => .num r.num_txns)) := by
  rw [show (tableOf rs).getCol "num_txns"
      = .ok ((rs.map Record.toRow).map (fun r => r.getD 0 .nan)) from rfl]
  simp [Record.toRow]

lemma getCol_tableOf_elapsed (rs : List Record) :
    (tableOf rs).getCol "elapsed_ms" = .ok (rs.map (fun r => .num r.elapsed_ms)) := by
  rw [show (tableOf rs).getCol "elapsed_ms"
      = .ok ((rs.map Record.toRow).map (fun r => r.getD 1 .nan)) from rfl]
  simp [Record.toRow]

lemma calcThroughput_eval (rs : List Record) :
    calcThroughput (tableOf rs) = .ok (thrTable rs) := by
  have hm : (rs.map (fun r => (Value.num r.num_txns, Value.num r.elapsed_ms))).mapM
      (fun p => throughputVal p.1 p.2) = .ok (rs.map thrValOf) :=
    mapM_ok_map _ _ _ rs (fun a => rfl)
  have hset : (tableOf rs).setCol "throughput" (rs.map thrValOf) = thrTable rs := by
    rw [show (tableOf rs).setCol "throughput" (rs.map thrValOf)
        = ⟨hdr4 ++ ["throughput"],
           List.zipWith (fun r v => r ++ [v]) (rs.map Record.toRow) (rs.map thrValOf)⟩
        from rfl]
    rw [zipWith_map_same]
    rfl
  unfold calcThroughput
  rw [getCol_tableOf_numTxns, getCol_tableOf_elapsed, ok_bind, ok_bind,
      List.zip_map', hm, ok_bind, hset]

lemma coerceVerified_eval (rs : List Record) :
    coerceVerified (thrTable rs) = .ok (augTable rs) := by
  have hget : (thrTable rs).getCol "verified" = .ok (rs.map (fun r => r.verified)) := by
    rw [show (thrTable rs).getCol "verified"
        = .ok ((rs.map (fun r => r.toRow ++ [thrValOf r])).map (fun r => r.getD 3 .nan))
        from rfl]
    simp [Record.toRow]
  unfold coerceVerified
  rw [hget, ok_bind]
  rw [show (thrTable rs).setCol "verified"
        ((rs.map (fun r => r.verified)).map (fun v => Value.bool v.astypeBool))
      = (⟨hdr5, List.zipWith (fun r v => r.set 3 v)
          (rs.map (fun r => r.toRow ++ [thrValOf r]))
          ((rs.map (fun r => r.verified)).map (fun v => Value.bool v.astypeBool))⟩ : RawTable)
      from rfl]
  rw [List.map_map, zipWith_map_same]
  rfl

lemma getCol_augRows_verified (l : List Record) :
    (RawTable.mk hdr5 (l.map augRow)).getCol "verified"
      = .ok (l.map (fun r => Value.bool r.verified.astypeBool)) := by
  rw [show (RawTable.mk hdr5 (l.map augRow)).getCol "verified"
      = .ok ((l.map augRow).map (fun r => r.getD 3 .nan)) from rfl]
  simp [augRow]

lemma filterByBool_augTable_true (rs : List Record) :
    (augTable rs).filterByBool "verified" true
      = .ok ⟨hdr5, (truePart rs).map augRow⟩ := by
  unfold RawTable.filterByBool
  rw [show (augTable rs).getCol "verified"
      = .ok (rs.map (fun r => Value.bool r.verified.astypeBool))
      from getCol_augRows_verified rs]
  rw [ok_bind]
  rw [show (augTable rs).rows = rs.map augRow from rfl]
  rw [List.zip_map', filter_map_comm, List.map_map]
  rw [List.filter_congr
      (show ∀ r ∈ rs,
        ((fun a => ((augRow a, Value.bool a.verified.astypeBool).2.pyEq (.bool true))) r)
          = r.verified.astypeBool
       from fun r _ => by cases h : r.verified.astypeBool <;> simp [Value.pyEq, h])]
  rfl

lemma filterByBool_augTable_false (rs : List Record) :
    (augTable rs).filterByBool "verified" false
      = .ok ⟨hdr5, (falsePart rs).map augRow⟩ := by
  unfold RawTable.filterByBool
  rw [show (augTable rs).getCol "verified"
      = .ok (rs.map (fun r => Value.bool r.verified.astypeBool))
      from getCol_augRows_verified rs]
  rw [ok_bind]
  rw [show (augTable rs).rows = rs.map augRow from rfl]
  rw [List.zip_map', filter_map_comm, List.map_map]
  rw [List.filter_congr
      (show ∀ r ∈ rs,
        ((fun a => ((augRow a, Value.bool a.verified.astypeBool).2.pyEq (.bool false))) r)
          = !r.verified.astypeBool
       from fun r _ => by cases h : r.verified.astypeBool <;> simp [Value.pyEq, h])]
  rfl

lemma partitionVerified_eval (rs : List Record) :
    partitionVerified (augTable rs)
      = .ok (⟨hdr5, (truePart rs).map augRow⟩, ⟨hdr5, (falsePart rs).map augRow⟩) := by
  unfold partitionVerified
  rw [filterByBool_augTable_true, ok_bind, filterByBool_augTable_false, ok_bind]

lemma getCol_augRows_numKeys (l : List Record) :
    (RawTable.mk hdr5 (l.map augRow)).getCol "num_keys"
      = .ok (l.map (fun r => Value.num r.num_keys)) := by
  rw [show (RawTable.mk hdr5 (l.map augRow)).getCol "num_keys"
      = .ok ((l.map augRow).map (fun r => r.getD 2 .nan)) from rfl]
  simp [augRow]

lemma getCol_augRows_throughput (l : List Record) :
    (RawTable.mk hdr5 (l.map augRow)).getCol "throughput"
      = .ok (l.map thrValOf) := by
  rw [show (RawTable.mk hdr5 (l.map augRow)).getCol "throughput"
      = .ok ((l.map augRow).map (fun r => r.getD 4 .nan)) from rfl]
  simp [augRow]

lemma mkChartLinear_eval (rs : List Record) :
    mkChartLinear ⟨hdr5, (truePart rs).map augRow⟩ ⟨hdr5, (falsePart rs).map augRow⟩
      = .ok (chartLinearOf rs) := by
  unfold mkChartLinear
  rw [getCol_augRows_numKeys, ok_bind, getCol_augRows_throughput, ok_bind,
      getCol_augRows_numKeys, ok_bind, getCol_augRows_throughput, ok_bind]
  rfl

lemma mkChartLog_eval (rs : List Record) :
    mkChartLog ⟨hdr5, (truePart rs).map augRow⟩ ⟨hdr5, (falsePart rs).map augRow⟩
      = .ok (chartLogOf rs) := by
  unfold mkChartLog
  rw [getCol_augRows_numKeys, ok_bind, getCol_augRows_throughput, ok_bind,
      getCol_augRows_numKeys, ok_bind, getCol_augRows_throughput, ok_bind]
  rfl

lemma run_linear_content (path : String) (rs : List Record) :
    generate_throughput_linegraph path (.content (tableOf rs))
      = .success "linegraph.png" (chartLinearOf rs) "Line graph saved to linegraph.png" := by
  unfold generate_throughput_linegraph linearBody
  rw [show read_csv path (.content (tableOf rs)) = .ok (tableOf rs) from rfl, ok_bind,
      calcThroughput_eval, ok_bind, coerceVerified_eval, ok_bind,
      partitionVerified_eval, ok_bind, mkChartLinear_eval]

lemma run_log_content (path : String) (rs : List Record) :
    generate_log_linegraph path (.content (tableOf rs))
      = .success "linegraph_log.png" (chartLogOf rs) "Graph saved to linegraph_log.png" := by
  have h1 : logBodyAfterLoad (tableOf rs) = .ok (chartLogOf rs) := by
    unfold logBodyAfterLoad
    rw [calcThroughput_eval, ok_bind, coerceVerified_eval, ok_bind,
        partitionVerified_eval, ok_bind, mkChartLog_eval]
  unfold generate_log_linegraph
  rw [show read_csv path (.content (tableOf rs)) = .ok (tableOf rs) from rfl]
  show (match logBodyAfterLoad (tableOf rs) with
    | Except.ok c => RunResult.success "linegraph_log.png" c "Graph saved to linegraph_log.png"
    | Except.error e => RunResult.uncaught e) = _
  rw [h1]

lemma getCol_tableOf_numKeys (rs : List Record) :
    (tableOf rs).getCol "num_keys" = .ok (rs.map (fun r => .num r.num_keys)) := by
  rw [show (tableOf rs).getCol "num_keys"
      = .ok ((rs.map Record.toRow).map (fun r => r.getD 2 .nan)) from rfl]
  simp [Record.toRow]

lemma getCol_augRows_numTxns (l : List Record) :
    (RawTable.mk hdr5 (l.map augRow)).getCol "num_txns"
      = .ok (l.map (fun r => Value.num r.num_txns)) := by
  rw [show (RawTable.mk hdr5 (l.map augRow)).getCol "num_txns"
      = .ok ((l.map augRow).map (fun r => r.getD 0 .nan)) from rfl]
  simp [augRow]

lemma getCol_augRows_elapsed (l : List Record) :
    (RawTable.mk hdr5 (l.map augRow)).getCol "elapsed_ms"
      = .ok (l.map (fun r => Value.num r.elapsed_ms)) := by
  rw [show (RawTable.mk hdr5 (l.map augRow)).getCol "elapsed_ms"
      = .ok ((l.map augRow).map (fun r => r.getD 1 .nan)) from rfl]
  simp [augRow]

lemma getCol_thrTable_throughput (rs : List Record) :
    (thrTable rs).getCol "throughput" = .ok (rs.map thrValOf) := by
  rw [show (thrTable rs).getCol "throughput"
      = .ok ((rs.map (fun r => r.toRow ++ [thrValOf r])).map (fun r => r.getD 4 .nan))
      from rfl]
  simp [Record.toRow]

lemma getCol_err_shape (t : RawTable) (c : String) (e : PyError)
    (h : t.getCol c = .error e) : e = .keyError c := by
  unfold RawTable.getCol at h
  cases hf : t.header.findIdx? (fun x => x == c) with
  | none => rw [hf] at h; injection h with h2; exact h2.symm
  | some i => rw [hf] at h; simp at h

lemma throughputVal_err (x y : Value) (e : PyError)
    (h : throughputVal x y = .error e) :
    e = .typeError "unsupported operand type for /" := by
  cases x <;> cases y <;> simp [throughputVal] at h <;> simp [h]

lemma mapM_throughputVal_err (l : List (Value × Value)) (e : PyError)
    (h : l.mapM (fun p => throughputVal p.1 p.2) = .error e) :
    e = .typeError "unsupported operand type for /" := by
  induction l generalizing e with
  | nil => exact Except.noConfusion h
  | cons a t ih =>
    rw [List.mapM_cons] at h
    cases ha : throughputVal a.1 a.2 with
    | error e1 =>
      rw [ha, error_bind] at h
      injection h with h2
      exact h2 ▸ throughputVal_err a.1 a.2 e1 ha
    | ok v =>
      rw [ha, ok_bind] at h
      cases ht : t.mapM (fun p => throughputVal p.1 p.2) with
      | error e2 =>
        rw [ht, error_bind] at h
        injection h with h2
        exact h2 ▸ ih e2 ht
      | ok vs =>
        rw [ht, ok_bind] at h
        exact Except.noConfusion h

lemma calcThroughput_err (df : RawTable) (e : PyError)
    (h : calcThroughput df = .error e) : e.isFnf = false := by
  unfold calcThroughput at h
  cases h1 : df.getCol "num_txns" with
  | error e1 =>
    rw [h1, error_bind] at h
    injection h with h2
    rw [← h2, getCol_err_shape df "num_txns" e1 h1]; rfl
  | ok nt =>
  rw [h1, ok_bind] at h
  cases h2 : df.getCol "elapsed_ms" with
  | error e2 =>
    rw [h2, error_bind] at h
    injection h with h3
    rw [← h3, getCol_err_shape df "elapsed_ms" e2 h2]; rfl
  | ok el =>
  rw [h2, ok_bind] at h
  cases h3 : (nt.zip el).mapM (fun p => throughputVal p.1 p.2) with
  | error e3 =>
    rw [h3, error_bind] at h
    injection h with h4
    rw [← h4, mapM_throughputVal_err _ e3 h3]; rfl
  | ok thr =>
    rw [h3, ok_bind] at h
    simp at h

lemma coerceVerified_err (df : RawTable) (e : PyError)
    (h : coerceVerified df = .error e) : e.isFnf = false := by
  unfold coerceVerified at h
  cases h1 : df.getCol "verified" with
  | error e1 =>
    rw [h1, error_bind] at h
    injection h with h2
    rw [← h2, getCol_err_shape df "verified" e1 h1]; rfl
  | ok ver => rw [h1, ok_bind] at h; simp at h

lemma filterByBool_err (t : RawTable) (c : String) (b : Bool) (e : PyError)
    (h : t.filterByBool c b = .error e) : e = .keyError c := by
  unfold RawTable.filterByBool at h
  cases h1 : t.getCol c with
  | error e1 =>
    rw [h1, error_bind] at h
    injection h with h2
    exact h2 ▸ getCol_err_shape t c e1 h1
  | ok col => rw [h1, ok_bind] at h; simp at h

lemma partitionVerified_err (df : RawTable) (e : PyError)
    (h : partitionVerified df = .error e) : e.isFnf = false := by
  unfold partitionVerified at h
  cases h1 : df.filterByBool "verified" true with
  | error e1 =>
    rw [h1, error_bind] at h
    injection h with h2
    rw [← h2, filterByBool_err df "verified" true e1 h1]; rfl
  | ok t =>
  rw [h1, ok_bind] at h
  cases h2 : df.filterByBool "verified" false with
  | error e2 =>
    rw [h2, error_bind] at h
    injection h with h3
    rw [← h3, filterByBool_err df "verified" false e2 h2]; rfl
  | ok f => rw [h2, ok_bind] at h; simp at h

lemma mkChartLog_err (dfT dfF : RawTable) (e : PyError)
    (h : mkChartLog dfT dfF = .error e) : e.isFnf = false := by
  unfold mkChartLog at h
  cases h1 : dfT.getCol "num_keys" with
  | error e1 =>
    rw [h1, error_bind] at h
    injection h with h2
    rw [← h2, getCol_err_shape dfT "num_keys" e1 h1]; rfl
  | ok xt =>
  rw [h1, ok_bind] at h
  cases h2 : dfT.getCol "throughput" with
  | error e2 =>
    rw [h2, error_bind] at h
    injection h with h3
    rw [← h3, getCol_err_shape dfT "throughput" e2 h2]; rfl
  | ok yt =>
  rw [h2, ok_bind] at h
  cases h3 : dfF.getCol "num_keys" with
  | error e3 =>
    rw [h3, error_bind] at h
    injection h with h4
    rw [← h4, getCol_err_shape dfF "num_keys" e3 h3]; rfl
  | ok xf =>
  rw [h3, ok_bind] at h
  cases h4 : dfF.getCol "throughput" with
  | error e4 =>
    rw [h4, error_bind] at h
    injection h with h5
    rw [← h5, getCol_err_shape dfF "throughput" e4 h4]; rfl
  | ok yf => rw [h4, ok_bind] at h; simp at h

lemma logBodyAfterLoad_err (df : RawTable) (e : PyError)
    (h : logBodyAfterLoad df = .error e) : e.isFnf = false := by
  unfold logBodyAfterLoad at h
  cases h1 : calcThroughput df with
  | error e1 =>
    rw [h1, error_bind] at h
    injection h with h2
    exact h2 ▸ calcThroughput_err df e1 h1
  | ok df1 =>
  rw [h1, ok_bind] at h
  cases h2 : coerceVerified df1 with
  | error e2 =>
    rw [h2, error_bind] at h
    injection h with h3
    exact h3 ▸ coerceVerified_err df1 e2 h2
  | ok df2 =>
  rw [h2, ok_bind] at h
  cases h3 : partitionVerified df2 with
  | error e3 =>
    rw [h3, error_bind] at h
    injection h with h4
    exact h4 ▸ partitionVerified_err df2 e3 h3
  | ok pr =>
    rw [h3, ok_bind] at h
    exact mkChartLog_err pr.1 pr.2 e h

/-- The example table of section 8 of the spec: two records with expected
throughputs 2000 and 2000. -/
def rsEx : List Record :=
  [⟨100, 50, 10, .bool true⟩, ⟨200, 100, 20, .bool false⟩]

/-- A table whose rows are not ordered by `num_keys` (20 before 10). -/
def rsU : List Record :=
  [⟨1, 1, 20, .bool true⟩, ⟨1, 1, 10, .bool true⟩]

/-- A table whose `verified` cell is a non-boolean string. -/
def rsY : List Record := [⟨100, 50, 10, .str "yes"⟩]

/-- A parsed CSV that lacks the `num_txns` column entirely. -/
def tNoCols : RawTable := ⟨["num_keys"], []⟩

/-- A header-only measurements CSV: the four columns, no data rows. -/
def emptyTable : RawTable := ⟨hdr4, []⟩

/-- Whether a list of plotted X values is weakly increasing; a non-numeric
neighbour counts as unsorted. -/
def sortedByX : List Value → Bool
  | .num p :: .num q :: t => decide (p ≤ q) && sortedByX (.num q :: t)
  | _ :: _ :: _ => false
  | _ => true

/-- ASCII lowercasing, used to state case-insensitive string comparison. -/
def lowerStr (s : String) : String :=
  ⟨s.data.map (fun c => if c.val ≥ 65 && c.val ≤ 90 then Char.ofNat (c.toNat + 32) else c)⟩

/-- Modelled from the spec: the "common boolean-parsing semantics" the spec
prescribes for the `verified` coercion — non-zero numeric values and
case-insensitive "true" map to true; "false", 0, and empty map to false;
anything else is left unspecified.  This comparator is stated from the
words of the spec, to be compared with the coercion the code performs. -/
def commonBoolParse : Value → Option Bool
  | .num q => some (decide (q ≠ 0))
  | .bool b => some b
  | .str s =>
      if lowerStr s = "true" then some true
      else if lowerStr s = "false" then some false
      else if s = "" then some false
      else none
  | _ => none

lemma linear_success_iff (path : String) (inp : CsvInput) (f m : String) (c : Chart) :
    generate_throughput_linegraph path inp = .success f c m ↔
      linearBody path inp = .ok c ∧ f = "linegraph.png"
        ∧ m = "Line graph saved to linegraph.png" := by
  unfold generate_throughput_linegraph
  cases hb : linearBody path inp with
  | ok c2 => simp [RunResult.success.injEq]; tauto
  | error e => cases e <;> simp

lemma log_success_iff (path : String) (inp : CsvInput) (f m : String) (c : Chart) :
    generate_log_linegraph path inp = .success f c m ↔
      (∃ df, read_csv path inp = .ok df ∧ logBodyAfterLoad df = .ok c)
        ∧ f = "linegraph_log.png" ∧ m = "Graph saved to linegraph_log.png" := by
  unfold generate_log_linegraph
  cases hr : read_csv path inp with
  | error e => cases e <;> simp
  | ok df =>
    cases hb : logBodyAfterLoad df with
    | ok c2 => simp [hb, RunResult.success.injEq]; tauto
    | error e => simp [hb]

/-- C1: for every record of the loaded table, the derived throughput cell
equals `num_txns * 1000 / elapsed_ms` as an exact rational (stated under
the data-model assumption `elapsed_ms ≠ 0`, since a zero denominator
produces an infinity instead of a number), and both the linear and the
logarithmic pipeline plot exactly those values as their Y series. -/
theorem throughput_formula_all_records (path : String) (rs : List Record)
    (h : ∀ r ∈ rs, r.elapsed_ms ≠ 0) :
    ∃ df, calcThroughput (tableOf rs) = .ok df
      ∧ df.getCol "throughput"
          = .ok (rs.map (fun r => Value.num (r.num_txns * 1000 / r.elapsed_ms)))
      ∧ generate_throughput_linegraph path (.content (tableOf rs))
          = .success "linegraph.png" (chartLinearOf rs) "Line graph saved to linegraph.png"
      ∧ (chartLinearOf rs).series1.ys
          = (truePart rs).map (fun r => Value.num (r.num_txns * 1000 / r.elapsed_ms))
      ∧ (chartLinearOf rs).series2.ys
          = (falsePart rs).map (fun r => Value.num (r.num_txns * 1000 / r.elapsed_ms))
      ∧ generate_log_linegraph path (.content (tableOf rs))
          = .success "linegraph_log.png" (chartLogOf rs) "Graph saved to linegraph_log.png"
      ∧ (chartLogOf rs).series1.ys
          = (truePart rs).map (fun r => Value.num (r.num_txns * 1000 / r.elapsed_ms))
      ∧ (chartLogOf rs).series2.ys
          = (falsePart rs).map (fun r => Value.num (r.num_txns * 1000 / r.elapsed_ms)) := by
  have hv : ∀ r ∈ rs, thrValOf r = Value.num (r.num_txns * 1000 / r.elapsed_ms) := by
    intro r hr
    simp [thrValOf, thrVal, h r hr]
  refine ⟨thrTable rs, calcThroughput_eval rs, ?_,
          run_linear_content path rs, ?_, ?_, run_log_content path rs, ?_, ?_⟩
  · rw [getCol_thrTable_throughput, List.map_congr_left hv]
  · exact List.map_congr_left (fun r hr => hv r (List.mem_filter.mp hr).1)
  · exact List.map_congr_left (fun r hr => hv r (List.mem_filter.mp hr).1)
  · exact List.map_congr_left (fun r hr => hv r (List.mem_filter.mp hr).1)
  · exact List.map_congr_left (fun r hr => hv r (List.mem_filter.mp hr).1)

/-- Witness for C1, instantiated at the example table of section 8 of the
spec, whose throughputs are 2000 and 2000. -/
theorem throughput_formula_witness :
    ∃ df, calcThroughput (tableOf rsEx) = .ok df
      ∧ df.getCol "throughput"
          = .ok (rsEx.map (fun r => Value.num (r.num_txns * 1000 / r.elapsed_ms)))
      ∧ generate_throughput_linegraph "measurements.csv" (.content (tableOf rsEx))
          = .success "linegraph.png" (chartLinearOf rsEx) "Line graph saved to linegraph.png"
      ∧ (chartLinearOf rsEx).series1.ys
          = (truePart rsEx).map (fun r => Value.num (r.num_txns * 1000 / r.elapsed_ms))
      ∧ (chartLinearOf rsEx).series2.ys
          = (falsePart rsEx).map (fun r => Value.num (r.num_txns * 1000 / r.elapsed_ms))
      ∧ generate_log_linegraph "measurements.csv" (.content (tableOf rsEx))
          = .success "linegraph_log.png" (chartLogOf rsEx) "Graph saved to linegraph_log.png"
      ∧ (chartLogOf rsEx).series1.ys
          = (truePart rsEx).map (fun r => Value.num (r.num_txns * 1000 / r.elapsed_ms))
      ∧ (chartLogOf rsEx).series2.ys
          = (falsePart rsEx).map (fun r => Value.num (r.num_txns * 1000 / r.elapsed_ms)) :=
  throughput_formula_all_records "measurements.csv" rsEx (by
    intro r hr
    simp only [rsEx, List.mem_cons, List.not_mem_nil, or_false] at hr
    rcases hr with h | h <;> subst h <;> norm_num)

/-- C2: the partitioner splits the metric-calculator output into two
sub-tables that are a disjoint, order-preserving split: their lengths sum
to the length of the table, each sub-table is an in-order sublist, every
row lands in at least one partition and in the one matching its boolean
`verified` cell, and no row lands in both. -/
theorem partition_disjoint_split (rs : List Record) :
    (do let a ← calcThroughput (tableOf rs); coerceVerified a) = .ok (augTable rs)
  ∧ partitionVerified (augTable rs)
      = .ok (⟨hdr5, (truePart rs).map augRow⟩, ⟨hdr5, (falsePart rs).map augRow⟩)
  ∧ ((truePart rs).map augRow).length + ((falsePart rs).map augRow).length
      = (augTable rs).rows.length
  ∧ ((truePart rs).map augRow).Sublist (augTable rs).rows
  ∧ ((falsePart rs).map augRow).Sublist (augTable rs).rows
  ∧ (∀ row ∈ (augTable rs).rows,
        row ∈ (truePart rs).map augRow ∨ row ∈ (falsePart rs).map augRow)
  ∧ (∀ row ∈ (truePart rs).map augRow, row.getD 3 Value.nan = Value.bool true)
  ∧ (∀ row ∈ (falsePart rs).map augRow, row.getD 3 Value.nan = Value.bool false)
  ∧ (∀ row, ¬(row ∈ (truePart rs).map augRow ∧ row ∈ (falsePart rs).map augRow)) := by
  have hT : ∀ row ∈ (truePart rs).map augRow, row.getD 3 Value.nan = Value.bool true := by
    intro row hrow
    rcases List.mem_map.mp hrow with ⟨r, hr, rfl⟩
    have hb := (List.mem_filter.mp hr).2
    simp [augRow, hb]
  have hF : ∀ row ∈ (falsePart rs).map augRow, row.getD 3 Value.nan = Value.bool false := by
    intro row hrow
    rcases List.mem_map.mp hrow with ⟨r, hr, rfl⟩
    have hb := (List.mem_filter.mp hr).2
    simp at hb
    simp [augRow, hb]
  refine ⟨?_, partitionVerified_eval rs, ?_, ?_, ?_, ?_, hT, hF, ?_⟩
  · rw [calcThroughput_eval, ok_bind, coerceVerified_eval]
  · simp only [List.length_map, augTable]
    exact length_filter_not _ rs
  · exact (List.filter_sublist rs).map augRow
  · exact (List.filter_sublist rs).map augRow
  · intro row hrow
    rcases List.mem_map.mp hrow with ⟨r, hr, rfl⟩
    by_cases hb : r.verified.astypeBool
    · exact Or.inl (List.mem_map_of_mem _ (List.mem_filter.mpr ⟨hr, hb⟩))
    · exact Or.inr (List.mem_map_of_mem _ (List.mem_filter.mpr ⟨hr, by simp [hb]⟩))
  · intro row hrow
    have e1 := hT row hrow.1
    have e2 := hF row hrow.2
    rw [e1] at e2
    simp at e2

/-- Witness for C2: on the example table, a concrete row lands in one of
the two partitions. -/
theorem partition_split_witness :
    augRow ⟨100, 50, 10, .bool true⟩ ∈ (truePart rsEx).map augRow
      ∨ augRow ⟨100, 50, 10, .bool true⟩ ∈ (falsePart rsEx).map augRow :=
  (partition_disjoint_split rsEx).2.2.2.2.2.1 (augRow ⟨100, 50, 10, .bool true⟩)
    (by simp [augTable, rsEx])

/-- Counterexample to C3 as stated: on the example table both runs succeed
with identical underlying series, but the two charts differ in more than
axis scaling and file name — the false-partition marker and linestyle and
the axis-label texts also differ. -/
theorem linear_log_more_differences :
    generate_throughput_linegraph "measurements.csv" (.content (tableOf rsEx))
      = .success "linegraph.png" (chartLinearOf rsEx) "Line graph saved to linegraph.png"
  ∧ generate_log_linegraph "measurements.csv" (.content (tableOf rsEx))
      = .success "linegraph_log.png" (chartLogOf rsEx) "Graph saved to linegraph_log.png"
  ∧ (chartLinearOf rsEx).series2.marker = "o"
  ∧ (chartLogOf rsEx).series2.marker = "s"
  ∧ (chartLinearOf rsEx).series2.marker ≠ (chartLogOf rsEx).series2.marker
  ∧ (chartLinearOf rsEx).series2.linestyle ≠ (chartLogOf rsEx).series2.linestyle
  ∧ (chartLinearOf rsEx).ylabel ≠ (chartLogOf rsEx).ylabel
  ∧ (chartLinearOf rsEx).chartTitle ≠ (chartLogOf rsEx).chartTitle :=
  ⟨run_linear_content _ _, run_log_content _ _, rfl, rfl,
   by decide, by decide, by decide, by decide⟩

/-- C3 amended: whenever the linear run and the log run both succeed on the
same input, they plot identical underlying series — the same X and Y data
per partition in the same order — and they differ in axis scaling and
output file name; beyond the claim as stated, they also differ in the
false-partition marker and linestyle. -/
theorem series_identical_across_scales (path : String) (inp : CsvInput)
    (f1 f2 m1 m2 : String) (c1 c2 : Chart)
    (h1 : generate_throughput_linegraph path inp = .success f1 c1 m1)
    (h2 : generate_log_linegraph path inp = .success f2 c2 m2) :
    c1.series1.xs = c2.series1.xs ∧ c1.series1.ys = c2.series1.ys
  ∧ c1.series2.xs = c2.series2.xs ∧ c1.series2.ys = c2.series2.ys
  ∧ f1 = "linegraph.png" ∧ f2 = "linegraph_log.png"
  ∧ c1.yscale = "linear" ∧ c2.yscale = "log"
  ∧ c1.series2.marker = "o" ∧ c2.series2.marker = "s"
  ∧ c1.series2.linestyle = "-" ∧ c2.series2.linestyle = "--" := by
  rcases (linear_success_iff path inp f1 m1 c1).mp h1 with ⟨hb1, hf1, _⟩
  rcases (log_success_iff path inp f2 m2 c2).mp h2 with ⟨⟨df, hr, hb2⟩, hf2, _⟩
  subst hf1
  subst hf2
  unfold linearBody at hb1
  rw [hr, ok_bind] at hb1
  unfold logBodyAfterLoad at hb2
  cases hc : calcThroughput df with
  | error e => rw [hc, error_bind] at hb1; simp at hb1
  | ok df1 =>
  rw [hc, ok_bind] at hb1 hb2
  cases hv : coerceVerified df1 with
  | error e => rw [hv, error_bind] at hb1; simp at hb1
  | ok df2 =>
  rw [hv, ok_bind] at hb1 hb2
  cases hp : partitionVerified df2 with
  | error e => rw [hp, error_bind] at hb1; simp at hb1
  | ok pr =>
  rw [hp, ok_bind] at hb1 hb2
  unfold mkChartLinear at hb1
  unfold mkChartLog at hb2
  cases hxt : pr.1.getCol "num_keys" with
  | error e => rw [hxt, error_bind] at hb1; simp at hb1
  | ok xt =>
  rw [hxt, ok_bind] at hb1 hb2
  cases hyt : pr.1.getCol "throughput" with
  | error e => rw [hyt, error_bind] at hb1; simp at hb1
  | ok yt =>
  rw [hyt, ok_bind] at hb1 hb2
  cases hxf : pr.2.getCol "num_keys" with
  | error e => rw [hxf, error_bind] at hb1; simp at hb1
  | ok xf =>
  rw [hxf, ok_bind] at hb1 hb2
  cases hyf : pr.2.getCol "throughput" with
  | error e => rw [hyf, error_bind] at hb1; simp at hb1
  | ok yf =>
  rw [hyf, ok_bind] at hb1 hb2
  injection hb1 with hb1
  injection hb2 with hb2
  subst hb1
  subst hb2
  exact ⟨rfl, rfl, rfl, rfl, rfl, rfl, rfl, rfl, rfl, rfl, rfl, rfl⟩

/-- Witness for the amended C3, instantiated at the example table. -/
theorem series_identical_witness :
    (chartLinearOf rsEx).series1.xs = (chartLogOf rsEx).series1.xs
  ∧ (chartLinearOf rsEx).series1.ys = (chartLogOf rsEx).series1.ys
  ∧ (chartLinearOf rsEx).series2.xs = (chartLogOf rsEx).series2.xs
  ∧ (chartLinearOf rsEx).series2.ys = (chartLogOf rsEx).series2.ys
  ∧ "linegraph.png" = "linegraph.png" ∧ "linegraph_log.png" = "linegraph_log.png"
  ∧ (chartLinearOf rsEx).yscale = "linear" ∧ (chartLogOf rsEx).yscale = "log"
  ∧ (chartLinearOf rsEx).series2.marker = "o" ∧ (chartLogOf rsEx).series2.marker = "s"
  ∧ (chartLinearOf rsEx).series2.linestyle = "-"
  ∧ (chartLogOf rsEx).series2.linestyle = "--" :=
  series_identical_across_scales "measurements.csv" (.content (tableOf rsEx))
    "linegraph.png" "linegraph_log.png"
    "Line graph saved to linegraph.png" "Graph saved to linegraph_log.png"
    (chartLinearOf rsEx) (chartLogOf rsEx)
    (run_linear_content "measurements.csv" rsEx)
    (run_log_content "measurements.csv" rsEx)

/-- Counterexample to C4 as stated: the coercion the code performs maps the
strings "false" and "FALSE" to true, while the common boolean-parsing
semantics the spec prescribes (case-insensitive "false") map them to
false. -/
theorem astype_contradicts_common_parsing :
    Value.astypeBool (.str "false") = true
  ∧ commonBoolParse (.str "false") = some false
  ∧ Value.astypeBool (.str "FALSE") = true
  ∧ commonBoolParse (.str "FALSE") = some false :=
  ⟨by decide, by decide, by decide, by decide⟩

/-- C4 amended: the coercion of the `verified` column is Python truthiness,
not boolean parsing — a cell coerces to true exactly when it is a nonzero
number, the boolean true, a non-empty string (so the strings "false" and
"False" coerce to true), NaN, or an infinity; 0, the boolean false and the
empty string coerce to false. -/
theorem astype_coercion_characterisation (v : Value) :
    v.astypeBool = true ↔
      ((∃ q, v = Value.num q ∧ q ≠ 0) ∨ v = .bool true
        ∨ (∃ s, v = Value.str s ∧ s ≠ "") ∨ v = .nan ∨ (∃ b, v = Value.inf b)) := by
  cases v <;> simp [Value.astypeBool]

/-- C10: the actual coercion of the `verified` column (`astype(bool)`) maps
numeric 0 and the boolean false to false, and maps every nonzero number,
the boolean true, and every non-empty string — including the string
"False" — to true; the empty string maps to false. -/
theorem astype_actual_semantics :
    Value.astypeBool (.num 0) = false
  ∧ Value.astypeBool (.bool false) = false
  ∧ (∀ q : ℚ, q ≠ 0 → Value.astypeBool (.num q) = true)
  ∧ Value.astypeBool (.bool true) = true
  ∧ (∀ s : String, s ≠ "" → Value.astypeBool (.str s) = true)
  ∧ Value.astypeBool (.str "False") = true
  ∧ Value.astypeBool (.str "") = false := by
  refine ⟨by simp [Value.astypeBool], rfl, ?_, rfl, ?_, by decide, by decide⟩
  · intro q hq
    simp [Value.astypeBool, hq]
  · intro s hs
    simp [Value.astypeBool, hs]

/-- Witness for C10 at the concrete inputs 42 and "False". -/
theorem astype_actual_semantics_witness :
    Value.astypeBool (.num 42) = true ∧ Value.astypeBool (.str "False") = true :=
  ⟨astype_actual_semantics.2.2.1 42 (by norm_num),
   astype_actual_semantics.2.2.2.2.2.1⟩

lemma linear_run_cases (path : String) (inp : CsvInput) :
    (∃ c, linearBody path inp = .ok c
        ∧ generate_throughput_linegraph path inp
            = .success "linegraph.png" c "Line graph saved to linegraph.png")
  ∨ (∃ p, linearBody path inp = .error (.fileNotFound p)
        ∧ generate_throughput_linegraph path inp = .handled (fnfMsg p))
  ∨ (∃ e, linearBody path inp = .error e ∧ e.isFnf = false
        ∧ generate_throughput_linegraph path inp
            = .handled ("An error occurred: " ++ errMsg e)) := by
  unfold generate_throughput_linegraph
  cases hb : linearBody path inp with
  | ok c => exact Or.inl ⟨c, rfl, rfl⟩
  | error e =>
    cases e with
    | fileNotFound p => exact Or.inr (Or.inl ⟨p, rfl, rfl⟩)
    | parserError m => exact Or.inr (Or.inr ⟨_, rfl, rfl, rfl⟩)
    | keyError c => exact Or.inr (Or.inr ⟨_, rfl, rfl, rfl⟩)
    | typeError m => exact Or.inr (Or.inr ⟨_, rfl, rfl, rfl⟩)

lemma log_run_cases (path : String) (inp : CsvInput) :
    (inp = .missingFile ∧ generate_log_linegraph path inp = .handled (fnfMsg path))
  ∨ (∃ msg, inp = .malformed msg
        ∧ generate_log_linegraph path inp = .uncaught (.parserError msg))
  ∨ (∃ t, inp = .content t
        ∧ ((∃ c, logBodyAfterLoad t = .ok c
              ∧ generate_log_linegraph path inp
                  = .success "linegraph_log.png" c "Graph saved to linegraph_log.png")
          ∨ (∃ e, logBodyAfterLoad t = .error e
              ∧ generate_log_linegraph path inp = .uncaught e))) := by
  cases inp with
  | missingFile => exact Or.inl ⟨rfl, rfl⟩
  | malformed msg => exact Or.inr (Or.inl ⟨msg, rfl, rfl⟩)
  | content t =>
    refine Or.inr (Or.inr ⟨t, rfl, ?_⟩)
    cases hb : logBodyAfterLoad t with
    | ok c =>
      refine Or.inl ⟨c, rfl, ?_⟩
      unfold generate_log_linegraph
      rw [show read_csv path (.content t) = .ok t from rfl]
      show (match logBodyAfterLoad t with
        | Except.ok c2 =>
            RunResult.success "linegraph_log.png" c2 "Graph saved to linegraph_log.png"
        | Except.error e => RunResult.uncaught e) = _
      rw [hb]
    | error e =>
      refine Or.inr ⟨e, rfl, ?_⟩
      unfold generate_log_linegraph
      rw [show read_csv path (.content t) = .ok t from rfl]
      show (match logBodyAfterLoad t with
        | Except.ok c2 =>
            RunResult.success "linegraph_log.png" c2 "Graph saved to linegraph_log.png"
        | Except.error e2 => RunResult.uncaught e2) = _
      rw [hb]

/-- Counterexample to C5 as stated: on a parsed CSV that lacks the
`num_txns` column, the log pipeline does not catch the resulting
`KeyError` — the run ends with an uncaught non-file-not-found exception
instead of a printed message (though still without an output file). -/
theorem log_uncaught_keyerror :
    generate_log_linegraph "measurements.csv" (.content tNoCols)
      = .uncaught (.keyError "num_txns")
  ∧ (RunResult.uncaught (.keyError "num_txns")).isCaught = false
  ∧ (PyError.keyError "num_txns").isFnf = false
  ∧ (generate_log_linegraph "measurements.csv" (.content tNoCols)).outputOf = none :=
  ⟨rfl, rfl, rfl, rfl⟩

/-- C5 amended: in the linear pipeline every exception, file-not-found or
not, is caught at the top level and printed, and a caught run writes no
output file; in the log pipeline only file-not-found is ever caught (a
caught run implies the loader failed with file-not-found), every other
exception propagates uncaught, and an uncaught run also writes no output
file. -/
theorem error_catching_amended (path : String) (inp : CsvInput) :
    (generate_throughput_linegraph path inp).isUncaught = false
  ∧ (∀ m, generate_throughput_linegraph path inp = .handled m
        → (generate_throughput_linegraph path inp).outputOf = none)
  ∧ (∀ m, generate_log_linegraph path inp = .handled m
        → m = fnfMsg path ∧ read_csv path inp = .error (.fileNotFound path))
  ∧ (∀ e, generate_log_linegraph path inp = .uncaught e
        → e.isFnf = false ∧ (generate_log_linegraph path inp).outputOf = none) := by
  refine ⟨?_, ?_, ?_, ?_⟩
  · rcases linear_run_cases path inp with ⟨c, _, hrun⟩ | ⟨p, _, hrun⟩ | ⟨e, _, _, hrun⟩ <;>
      rw [hrun] <;> rfl
  · intro m hm
    rw [hm]
    rfl
  · intro m hm
    rcases log_run_cases path inp with ⟨hinp, hrun⟩ | ⟨msg, hinp, hrun⟩ |
        ⟨t, hinp, ⟨c, _, hrun⟩ | ⟨e, _, hrun⟩⟩
    · rw [hrun] at hm
      injection hm with hm2
      subst hinp
      exact ⟨hm2.symm, rfl⟩
    · rw [hrun] at hm
      simp at hm
    · rw [hrun] at hm
      simp at hm
    · rw [hrun] at hm
      simp at hm
  · intro e he
    rcases log_run_cases path inp with ⟨hinp, hrun⟩ | ⟨msg, hinp, hrun⟩ |
        ⟨t, hinp, ⟨c, _, hrun⟩ | ⟨e2, hb, hrun⟩⟩
    · rw [hrun] at he
      simp at he
    · rw [hrun] at he
      injection he with he2
      rw [hrun, ← he2]
      exact ⟨rfl, rfl⟩
    · rw [hrun] at he
      simp at he
    · rw [hrun] at he
      injection he with he2
      subst he2
      exact ⟨logBodyAfterLoad_err t _ hb, by rw [hrun]; rfl⟩

/-- Witness for the amended C5: run on a CSV missing the `num_txns` column;
the resulting uncaught exception is not of the file-not-found class and no
output file is written. -/
theorem error_catching_witness :
    (PyError.keyError "num_txns").isFnf = false
  ∧ (generate_log_linegraph "measurements.csv" (.content tNoCols)).outputOf = none :=
  (error_catching_amended "measurements.csv" (.content tNoCols)).2.2.2
    (.keyError "num_txns") rfl

/-- C6: for every path whose file is missing, each pipeline catches the
`FileNotFoundError`, prints a message naming the file, and terminates
without producing an output file. -/
theorem fnf_reported_no_output (path : String) :
    generate_throughput_linegraph path .missingFile = .handled (fnfMsg path)
  ∧ generate_log_linegraph path .missingFile = .handled (fnfMsg path)
  ∧ (generate_throughput_linegraph path .missingFile).outputOf = none
  ∧ (generate_log_linegraph path .missingFile).outputOf = none :=
  ⟨rfl, rfl, rfl, rfl⟩

/-- C7: on a header-only CSV both pipelines run to completion with no
error branch taken, both partitions are empty, and both saved charts have
empty series. -/
theorem empty_table_pipeline :
    generate_throughput_linegraph "measurements.csv" (.content emptyTable)
      = .success "linegraph.png" (chartLinearOf []) "Line graph saved to linegraph.png"
  ∧ generate_log_linegraph "measurements.csv" (.content emptyTable)
      = .success "linegraph_log.png" (chartLogOf []) "Graph saved to linegraph_log.png"
  ∧ (chartLinearOf []).series1.xs = [] ∧ (chartLinearOf []).series1.ys = []
  ∧ (chartLinearOf []).series2.xs = [] ∧ (chartLinearOf []).series2.ys = []
  ∧ (chartLogOf []).series1.xs = [] ∧ (chartLogOf []).series1.ys = []
  ∧ (chartLogOf []).series2.xs = [] ∧ (chartLogOf []).series2.ys = []
  ∧ partitionVerified (augTable []) = .ok (⟨hdr5, []⟩, ⟨hdr5, []⟩) :=
  ⟨run_linear_content "measurements.csv" [], run_log_content "measurements.csv" [],
   rfl, rfl, rfl, rfl, rfl, rfl, rfl, rfl, partitionVerified_eval []⟩

/-- C8: both renderers emit each partition X series in the partition table
order without sorting by `num_keys`; in particular on a table whose rows
are not ordered by `num_keys` the plotted X series is not sorted. -/
theorem plot_order_preserved :
    (∀ path rs,
        generate_throughput_linegraph path (.content (tableOf rs))
          = .success "linegraph.png" (chartLinearOf rs) "Line graph saved to linegraph.png"
      ∧ (chartLinearOf rs).series1.xs = (truePart rs).map (fun r => Value.num r.num_keys)
      ∧ (chartLinearOf rs).series2.xs = (falsePart rs).map (fun r => Value.num r.num_keys)
      ∧ generate_log_linegraph path (.content (tableOf rs))
          = .success "linegraph_log.png" (chartLogOf rs) "Graph saved to linegraph_log.png"
      ∧ (chartLogOf rs).series1.xs = (truePart rs).map (fun r => Value.num r.num_keys)
      ∧ (chartLogOf rs).series2.xs = (falsePart rs).map (fun r => Value.num r.num_keys))
  ∧ (chartLinearOf rsU).series1.xs = [Value.num 20, Value.num 10]
  ∧ sortedByX (chartLinearOf rsU).series1.xs = false
  ∧ sortedByX (chartLogOf rsU).series1.xs = false := by
  refine ⟨fun path rs =>
    ⟨run_linear_content path rs, rfl, rfl, run_log_content path rs, rfl, rfl⟩,
    rfl, ?_, ?_⟩
  · show sortedByX [Value.num 20, Value.num 10] = false
    simp [sortedByX]
    norm_num
  · show sortedByX [Value.num 20, Value.num 10] = false
    simp [sortedByX]
    norm_num

/-- Counterexample to C9 as stated: the metric-calculation step (lines 19
and 22) does not leave every non-throughput column unchanged — on a table
whose `verified` cell is the string "yes", it rewrites that cell to the
boolean true, a different value (also under the Python `==` of the
library). -/
theorem metric_rewrites_verified_column :
    (do let a ← calcThroughput (tableOf rsY); coerceVerified a) = .ok (augTable rsY)
  ∧ (augTable rsY).getCol "verified" = .ok [Value.bool true]
  ∧ (tableOf rsY).getCol "verified" = .ok [Value.str "yes"]
  ∧ (Value.bool true : Value) ≠ Value.str "yes"
  ∧ Value.pyEq (Value.str "yes") (Value.bool true) = false := by
  refine ⟨?_, rfl, rfl, by simp, rfl⟩
  rw [calcThroughput_eval, ok_bind, coerceVerified_eval]

/-- C9 amended: the metric-calculation step appends the `throughput` column
and rewrites the `verified` column in place with its boolean coercion;
everything else is unchanged — the header gains only `throughput`, the row
count is preserved, and the `num_txns`, `elapsed_ms` and `num_keys` columns
are untouched in value and order. -/
theorem metric_frame_conditions (rs : List Record) :
    (do let a ← calcThroughput (tableOf rs); coerceVerified a) = .ok (augTable rs)
  ∧ (augTable rs).header = (tableOf rs).header ++ ["throughput"]
  ∧ (augTable rs).rows.length = rs.length
  ∧ (augTable rs).getCol "num_txns" = (tableOf rs).getCol "num_txns"
  ∧ (augTable rs).getCol "elapsed_ms" = (tableOf rs).getCol "elapsed_ms"
  ∧ (augTable rs).getCol "num_keys" = (tableOf rs).getCol "num_keys"
  ∧ (augTable rs).getCol "verified"
      = .ok (rs.map (fun r => Value.bool r.verified.astypeBool))
  ∧ (augTable rs).getCol "throughput" = .ok (rs.map thrValOf) := by
  refine ⟨?_, rfl, by simp [augTable], ?_, ?_, ?_,
          getCol_augRows_verified rs, getCol_augRows_throughput rs⟩
  · rw [calcThroughput_eval, ok_bind, coerceVerified_eval]
  · exact (getCol_augRows_numTxns rs).trans (getCol_tableOf_numTxns rs).symm
  · exact (getCol_augRows_elapsed rs).trans (getCol_tableOf_elapsed rs).symm
  · exact (getCol_augRows_numKeys rs).trans (getCol_tableOf_numKeys rs).symm

/-- Witness for the amended C4 at the concrete cell "false". -/
theorem astype_coercion_characterisation_witness :
    Value.astypeBool (.str "false") = true ↔
      ((∃ q, Value.str "false" = Value.num q ∧ q ≠ 0) ∨ Value.str "false" = .bool true
        ∨ (∃ s, Value.str "false" = Value.str s ∧ s ≠ "")
        ∨ Value.str "false" = .nan ∨ (∃ b, Value.str "false" = Value.inf b)) :=
  astype_coercion_characterisation (.str "false")
